import Mathlib

/-!
Verification of the gopay payment/settlement core.

This file shallow-embeds the data model and the operations of the gopay
repository (payment aggregate, transaction ledger, fiat and crypto
settlement adapters) and proves or refutes the frozen claims about them.

Conventions of the embedding:
* Go `float64` money amounts are modelled as exact rationals (`ℚ`); the
  comparisons and the subtraction the code performs are order/field
  operations that the rational model reflects faithfully for the decimal
  amounts at hand.
* `math/big` integers are modelled as `ℤ` (they are arbitrary precision).
* Database rows are records in explicit lists; an SQL `UPDATE ... WHERE
  id=$1 RETURNING *` is a map over the list touching the matching row, and
  the `AFTER INSERT OR UPDATE` trigger of migration
  `2025-01-22-create-payment-transaction-sync` is applied after every
  transaction write.
* Network adapters are passed in as explicit functions / response streams;
  the recursive EVM confirmation wait is given explicit fuel, with `none`
  meaning "still retrying after that many attempts".
-/

namespace Gopay

/-! ## Base-10 integer parsing (Go `math/big` `Int.SetString(s, 10)`) -/

/-- Value of a decimal digit character, `none` for a non-digit. -/
def digitVal (c : Char) : Option Nat :=
  if '0' ≤ c ∧ c ≤ '9' then some (c.toNat - 48) else none

/-- Accumulate decimal digits; fails on any non-digit. -/
def parseDigitsAux (acc : Nat) : List Char → Option Nat
  | [] => some acc
  | c :: cs =>
    match digitVal c with
    | none => none
    | some d => parseDigitsAux (10 * acc + d) cs

/-- Parse a nonempty run of decimal digits. -/
def parseDigits : List Char → Option Nat
  | [] => none
  | c :: cs =>
    match digitVal c with
    | none => none
    | some d => parseDigitsAux d cs

/-- Model of Go `new(big.Int).SetString(s, 10)`: an optional sign followed
by a nonempty run of decimal digits; anything else fails. -/
def parseBase10 (s : String) : Option Int :=
  match s.toList with
  | '+' :: cs => (parseDigits cs).map (fun n => (n : Int))
  | '-' :: cs => (parseDigits cs).map (fun n => -(n : Int))
  | cs => (parseDigits cs).map (fun n => (n : Int))

/-- Model of Go `strconv.Atoi` with the error ignored: the parsed value, or
`0` when parsing fails (as in `confirms, _ := strconv.Atoi(...)`). -/
def atoiDefault (s : String) : Int :=
  (parseBase10 s).getD 0

/-! ## `utils.go`: token value conversion -/

/-- Model of Go `new(big.Int).Exp(big.NewInt(10), d, nil)`: `10^d`, except
that `big.Int.Exp` yields `1` whenever the exponent is not positive. -/
def bigIntExp10 (d : Int) : Int :=
  if d ≤ 0 then 1 else 10 ^ d.toNat

/-- ASCII whitespace recognized by Go `strings.TrimSpace` (the Unicode
space classes beyond ASCII do not occur in explorer payloads). -/
def isGoSpace (c : Char) : Bool :=
  c = ' ' || c = '\t' || c = '\n' || c = '\x0d' || c = '\x0b' || c = '\x0c'

/-- Model of Go `strings.TrimSpace`: drop leading and trailing
whitespace. -/
def strTrimSpace (s : String) : String :=
  ⟨(((s.toList.dropWhile isGoSpace).reverse.dropWhile isGoSpace).reverse)⟩

/-- Embedding of `fromStrTokenValueToNumber` (src/utils.go): trim the
decimals string, parse both strings as base-10 big integers (returning the
sentinel `-1` when either fails), and divide the value by
`big.Int.Exp(10, d, nil)`.  The result is the exact rational the big-float
quotient approximates, i.e. the value before the final `float64`
narrowing. -/
def fromStrTokenValueToNumber (valueStr : String) (tokenDecimal : String) : ℚ :=
  let tokenDecimal := strTrimSpace tokenDecimal
  match parseBase10 valueStr with
  | none => -1
  | some v =>
    match parseBase10 tokenDecimal with
    | none => -1
    | some d => (v : ℚ) / (bigIntExp10 d : ℚ)

/-- The conversion as the specification words it: exactly `v / 10 ^ d`
(with a true integer power, negative exponents included). -/
def specTokenValue (v d : Int) : ℚ :=
  (v : ℚ) / (10 : ℚ) ^ d

/-- Model of `fromStrTimestampToTime` (src/utils.go): `strconv.ParseInt`
with the error ignored, so `0` on failure; the Unix timestamp itself
stands for the `time.Time`. -/
def fromStrTimestampToTime (valueStr : String) : Int :=
  atoiDefault valueStr

/-! ## `enums.go`: enumerations -/

/-- Payment lifecycle status (`gopay_payment_status`). -/
inductive PaymentStatus
  | INITIATED
  | PENDING_DEPOSIT
  | DEPOSITED
  | ON_HOLD
  | PAID_OUT
  | CANCLED
  | REFUNDED
  deriving DecidableEq, Repr

/-- Payment rail (`gopay_payment_type`). -/
inductive PaymentType
  | FIAT
  | CRYPTO
  deriving DecidableEq, Repr

/-- Transaction type (`gopay_transaction_type`). -/
inductive TransactionType
  | DEPOSIT
  | PAYOUT
  deriving DecidableEq, Repr

/-- Derived transaction status (`gopay_transaction_status` after the 2025
migrations). -/
inductive TransactionStatus
  | PENDING
  | VERIFIED
  | CANCELED
  | ACTION_REQUIRED
  deriving DecidableEq, Repr

/-- Go `Currency` is a string type; only `"USD"` and `"JPY"` are named. -/
abbrev Currency := String

/-- US dollar constant. -/
def USD : Currency := "USD"

/-- Japanese yen constant. -/
def JPY : Currency := "JPY"

/-! ## `fiat.go`: `stripeAmount` -/

/-- Go's `int64(x)` conversion of a numeric amount: truncation toward
zero (idealized over the rational model of the `float64` amount). -/
def goInt64 (q : ℚ) : Int :=
  if q < 0 then -(Rat.floor (-q)) else Rat.floor q

/-- Embedding of `stripeAmount` (src/fiat.go): USD is converted to cents,
JPY is passed through in whole units, and every other currency falls to
the default branch returning `0`. -/
def stripeAmount (amount : ℚ) (currency : Currency) : Int :=
  if currency = USD then goInt64 (amount * 100)
  else if currency = JPY then goInt64 amount
  else 0

/-! ## `crypto.go`: crypto settlement adapter -/

/-- A configured token (`CryptoToken` in src/crypto.go). -/
structure CryptoToken where
  name : String
  symbol : String
  address : String
  decimals : Int
  deriving DecidableEq, Repr

/-- One row of the EVM explorer's `tokentx` result
(`EvmTokenTransferResponse` in src/crypto.go); every field is a string in
the explorer's JSON. -/
structure EvmTokenTransferResponse where
  blockNumber : String
  timeStamp : String
  hash : String
  fromAddr : String
  contractAddress : String
  toAddr : String
  value : String
  tokenName : String
  tokenSymbol : String
  tokenDecimal : String
  confirmations : String
  deriving DecidableEq, Repr

/-- A Cardano amount entry (blockfrost `TxAmount`): token unit and raw
quantity. -/
structure TxAmount where
  unit : String
  quantity : String
  deriving DecidableEq, Repr

/-- The slice of blockfrost `TransactionContent` the code reads: the
containing block id and the transaction-level output amounts. -/
structure TransactionContent where
  block : String
  outputAmount : List TxAmount
  deriving DecidableEq, Repr

/-- A UTXO endpoint (blockfrost input/output): address plus amounts. -/
structure TxUtxo where
  address : String
  amount : List TxAmount
  deriving DecidableEq, Repr

/-- The slice of blockfrost `TransactionUTXOs` the code reads. -/
structure TransactionUTXOs where
  inputs : List TxUtxo
  outputs : List TxUtxo
  deriving DecidableEq, Repr

/-- The slice of blockfrost `Block` the code reads. -/
structure CardanoBlock where
  time : Int
  deriving DecidableEq, Repr

/-- Raw payload stored in `CryptoTransactionInfo.Meta`. -/
inductive CryptoRawMeta
  | evm (row : EvmTokenTransferResponse)
  | cardano (tx : TransactionContent) (utxos : TransactionUTXOs) (block : CardanoBlock)
  deriving DecidableEq, Repr

/-- Embedding of `CryptoTransactionInfo` (src/crypto.go); the date is the
Unix timestamp. -/
structure CryptoTransactionInfo where
  txHash : String
  totalAmount : ℚ
  toAddr : String
  fromAddr : String
  token : CryptoToken
  date : Int
  confirmed : Bool
  message : String
  metaRaw : Option CryptoRawMeta
  deriving DecidableEq, Repr

/-- Lookup parameters (`CryptoParams` in src/crypto.go). -/
structure CryptoParams where
  txHash : String
  tokenAddress : String
  deriving DecidableEq, Repr

/-- The loop `for _, res := range response.Result { if res.Hash == txHash
{ evmInfo = &res } }`: the last matching row wins. -/
def findTxRow (rows : List EvmTokenTransferResponse) (txHash : String) :
    Option EvmTokenTransferResponse :=
  rows.foldl (fun acc r => if r.hash = txHash then some r else acc) none

/-- The `CryptoTransactionInfo` literal built by `getEvmTXInfo` once the
confirmation-depth wait has finished on `row`. -/
def mkEvmInfo (txHash : String) (token : CryptoToken)
    (row : EvmTokenTransferResponse) : CryptoTransactionInfo :=
  { txHash := txHash
    totalAmount := fromStrTokenValueToNumber row.value row.tokenDecimal
    date := fromStrTimestampToTime row.timeStamp
    fromAddr := row.fromAddr
    toAddr := row.toAddr
    metaRaw := some (.evm row)
    token := token
    confirmed := decide (10 < atoiDefault row.confirmations)
    message := "" }

/-- One explorer fetch outcome: transport/HTTP/decode failure, or the
decoded `Result` rows. -/
def EvmFetch := Except String (List EvmTokenTransferResponse)

/-- Embedding of `getEvmTXInfo` (src/crypto.go).  `fetch k` is the outcome
of the explorer query on attempt `k` (each recursive call re-issues the
HTTP request).  The function recurses while the matched row has fewer than
10 confirmations, sleeping between attempts; `fuel` bounds how many
attempts we unfold, and `none` means the code is still retrying after
`fuel` attempts — the Go original has no such bound and simply does not
return. -/
def getEvmTXInfoFuel (fetch : Nat → EvmFetch) (txHash : String)
    (token : CryptoToken) : Nat → Nat → Option (Except String CryptoTransactionInfo)
  | _, 0 => none
  | k, fuel + 1 =>
    match fetch k with
    | .error e => some (.error e)
    | .ok rows =>
      match findTxRow rows txHash with
      | none => some (.error ("transaction " ++ txHash ++ " not found"))
      | some row =>
        if atoiDefault row.confirmations < 10 then
          getEvmTXInfoFuel fetch txHash token (k + 1) fuel
        else
          some (.ok (mkEvmInfo txHash token row))

/-- Embedding of `getCardanoTXInfo` (src/crypto.go).  The three blockfrost
calls are passed in as their outcomes; Go's `tx.OutputAmount[0]`,
`utxos.Inputs[0]` and `utxos.Inputs[1]` index expressions panic when the
lists are too short, modelled as a distinguished error. -/
def getCardanoTXInfo (txHash : String) (token : CryptoToken)
    (apiTx : Except String TransactionContent)
    (apiUtxos : Except String TransactionUTXOs)
    (apiBlock : Except String CardanoBlock) :
    Except String CryptoTransactionInfo :=
  match apiTx with
  | .error e => .error e
  | .ok tx =>
    match apiUtxos with
    | .error e => .error e
    | .ok utxos =>
      match apiBlock with
      | .error e => .error e
      | .ok block =>
        match tx.outputAmount, utxos.inputs with
        | out0 :: _, in0 :: in1 :: _ =>
          .ok
            { txHash := txHash
              totalAmount :=
                fromStrTokenValueToNumber out0.quantity (toString token.decimals)
              date := block.time
              fromAddr := in0.address
              toAddr := in1.address
              metaRaw := some (.cardano tx utxos block)
              token := token
              confirmed := true
              message := "" }
        | _, _ => .error "runtime panic: index out of range"

/-! ## `fiat.go`: fiat adapter result types -/

/-- A requested transfer split (`Transfer` in src/fiat.go). -/
structure Transfer where
  amount : ℚ
  destination : String
  deriving DecidableEq, Repr

/-- Result of `Fiats.Pay` (`FiatTransactionInfo` in src/fiat.go). -/
structure FiatTransactionInfo where
  txid : String
  totalAmount : Int
  currency : String
  date : Int
  confirmed : Bool
  requiresAction : Bool
  clientSecret : String
  deriving DecidableEq, Repr

/-- Parameters of `Fiats.Pay` (`FiatParams` in src/fiat.go). -/
structure FiatParams where
  serviceName : String
  customer : String
  description : String
  amount : ℚ
  currency : Currency
  transfer : Option Transfer
  deriving DecidableEq, Repr

/-- Parameters of `Fiats.ConfirmPayment` (`FiatPaymentConfirmParams`). -/
structure FiatPaymentConfirmParams where
  serviceName : String
  paymentIntentID : String
  deriving DecidableEq, Repr

/-- Result of `Fiats.ConfirmPayment` (`FiatPaymentConfirmInfo`); the raw
intent payload is irrelevant to the control flow and kept opaque. -/
structure FiatPaymentConfirmInfo where
  isConfirmed : Bool
  deriving DecidableEq, Repr

/-! ## Data model: payments, identities, transactions -/

/-- The JSON documents the aggregate marshals into `meta` columns
(`json.Marshal(map[string]interface{}{...})` call sites); user-supplied
`meta interface{}` payloads are kept as opaque strings. -/
inductive MetaDoc
  | empty
  | user (m : String)
  | fiatInfo (info : Option FiatTransactionInfo) (err : Option String)
  | confirmInfo (info : Option FiatPaymentConfirmInfo) (err : Option String)
  | cryptoInfo (info : Option CryptoTransactionInfo) (userMeta : String)
      (err : Option String)
  deriving DecidableEq, Repr

/-- A `PaymentIdentity` row (src/unnamed/part_001). -/
structure PaymentIdentity where
  id : Nat
  paymentId : Nat
  identityId : Nat
  account : String
  roleName : String
  allocatedAmount : ℚ
  meta : MetaDoc
  deriving DecidableEq, Repr

/-- A `Transaction` row (src/unnamed/part_003, post-2025 migrations). -/
structure Transaction where
  id : Nat
  paymentId : Nat
  identityId : Nat
  txid : String
  tag : String
  amount : ℚ
  fee : ℚ
  discount : ℚ
  status : Option TransactionStatus
  ttype : TransactionType
  meta : MetaDoc
  canceledAt : Option Nat
  verifiedAt : Option Nat
  deriving DecidableEq, Repr

/-- A `Payment` row together with the in-memory `Identities` and
`Transactions` slices of the Go struct (src/unnamed/part_001). -/
structure Payment where
  id : Nat
  tag : String
  description : String
  uniqueRef : String
  totalAmount : ℚ
  currency : Currency
  fiatServiceName : Option String
  cryptoCurrency : Option String
  cryptoCurrencyRate : Option ℚ
  meta : MetaDoc
  status : PaymentStatus
  transactionStatus : Option TransactionStatus
  clientSecret : Option String
  ptype : PaymentType
  identities : List PaymentIdentity
  transactions : List Transaction
  deriving DecidableEq, Repr

/-- Creation parameters (`PaymentParams` in src/unnamed/part_001). -/
structure PaymentParams where
  tag : String
  description : String
  ref : String
  currency : Currency
  totalAmount : ℚ
  ptype : PaymentType
  meta : String
  deriving DecidableEq, Repr

/-- The persisted store: the three tables the package owns. -/
structure DB where
  payments : List Payment
  identities : List PaymentIdentity
  transactions : List Transaction
  deriving DecidableEq, Repr

/-! ## Persistence semantics: trigger and row operations -/

/-- The status the trigger of migration
`2025-01-22-create-payment-transaction-sync` derives from a transaction
row: `CANCELED` when `canceled_at` is set, else `VERIFIED` when
`verified_at` is set, else NULL. -/
def txDerivedStatus (t : Transaction) : Option TransactionStatus :=
  if t.canceledAt.isSome then some .CANCELED
  else if t.verifiedAt.isSome then some .VERIFIED
  else none

/-- Fire the `AFTER INSERT OR UPDATE ON transactions` trigger: copy the
derived status onto the owning payment row. -/
def fireTrigger (db : DB) (t : Transaction) : DB :=
  { db with
    payments := db.payments.map fun q =>
      if q.id = t.paymentId then { q with transactionStatus := txDerivedStatus t }
      else q }

/-- `Transaction.Create` (src/unnamed/part_003): insert the row (the
`status` column takes its `'PENDING'` default) and fire the trigger. -/
def txInsert (db : DB) (t : Transaction) : DB :=
  fireTrigger { db with transactions := db.transactions ++ [t] } t

/-- The row-level effect of `Transaction.Verify`'s SQL:
`SET tx_id=$2, meta=$3, verified_at=NOW()`. -/
def verifyRow (t : Transaction) (now : Nat) (r : Transaction) : Transaction :=
  { r with txid := t.txid, meta := t.meta, verifiedAt := some now }

/-- The row-level effect of `Transaction.Cancel`'s SQL:
`SET meta=$2, canceled_at=NOW()`. -/
def cancelRow (t : Transaction) (now : Nat) (r : Transaction) : Transaction :=
  { r with meta := t.meta, canceledAt := some now }

/-- The row-level effect of `Transaction.ActionRequired`'s SQL:
`SET tx_id=$2, meta=$3, status='ACTION_REQUIRED'`. -/
def actionRequiredRow (t : Transaction) (r : Transaction) : Transaction :=
  { r with txid := t.txid, meta := t.meta, status := some .ACTION_REQUIRED }

/-- Apply a row update to the transaction with the given id and fire the
trigger with the updated row (`UPDATE ... WHERE id=$1 RETURNING *`). -/
def txUpdateBy (db : DB) (t : Transaction) (f : Transaction → Transaction) : DB :=
  let db' := { db with
    transactions := db.transactions.map fun r => if r.id = t.id then f r else r }
  fireTrigger db' (f t)

/-- `Transaction.Verify` applied from the in-memory struct `t`. -/
def txVerify (db : DB) (t : Transaction) (now : Nat) : DB :=
  txUpdateBy db t (verifyRow t now)

/-- `Transaction.Cancel` applied from the in-memory struct `t`. -/
def txCancel (db : DB) (t : Transaction) (now : Nat) : DB :=
  txUpdateBy db t (cancelRow t now)

/-- `Payment.Update` (src/unnamed/part_001): `SET status=$1, meta=$2,
transaction_status=COALESCE($3, transaction_status), client_secret=$4
WHERE id=$5`, from the in-memory struct `p`. -/
def paymentUpdate (db : DB) (p : Payment) : DB :=
  { db with
    payments := db.payments.map fun q =>
      if q.id = p.id then
        { q with
          status := p.status
          meta := p.meta
          transactionStatus :=
            match p.transactionStatus with
            | some s => some s
            | none => q.transactionStatus
          clientSecret := p.clientSecret }
      else q }

/-! ## Standalone ledger calls (the `Transaction` methods as callers see
them): `UPDATE ... RETURNING *` scans a row back, failing with
`sql.ErrNoRows` when no row matches the id, and succeeding otherwise —
there is no terminal-state guard in the SQL. -/

/-- `Transaction.Verify` as a fallible call. -/
def ledgerVerify (db : DB) (t : Transaction) (now : Nat) : Except String DB :=
  if db.transactions.any fun r => r.id = t.id then .ok (txVerify db t now)
  else .error "sql: no rows in result set"

/-- `Transaction.Cancel` as a fallible call. -/
def ledgerCancel (db : DB) (t : Transaction) (now : Nat) : Except String DB :=
  if db.transactions.any fun r => r.id = t.id then .ok (txCancel db t now)
  else .error "sql: no rows in result set"

/-- `Transaction.ActionRequired` as a fallible call. -/
def ledgerActionRequired (db : DB) (t : Transaction) : Except String DB :=
  if db.transactions.any fun r => r.id = t.id then
    .ok (txUpdateBy db t (actionRequiredRow t))
  else .error "sql: no rows in result set"

/-! ## Payment aggregate operations (src/unnamed/part_001) -/

/-- Error taxonomy of the aggregate operations.  The Go code returns
`fmt.Errorf` values; the constructors mirror the distinct messages
(`amountMismatch` carries expected and reported amounts, `panic` models a
Go runtime panic on a nil deref / out-of-range index). -/
inductive GopayError
  | validation (msg : String)
  | amountMismatch (expected got : ℚ)
  | notConfirmed (paymentIntentID : String)
  | adapter (msg : String)
  | panic (msg : String)
  deriving DecidableEq, Repr

/-- The `DO UPDATE SET` list of `New`'s upsert: `tag=$1, description=$2,
total_amount=$4, currency=$5, status=$6, type=$7, meta=$8` (with `$6 =
INITIATED`); every other column of the existing row is kept. -/
def upsertFields (q : Payment) (params : PaymentParams) : Payment :=
  { q with
    tag := params.tag
    description := params.description
    totalAmount := params.totalAmount
    currency := params.currency
    status := .INITIATED
    ptype := params.ptype
    meta := .user params.meta }

/-- The row `New`'s plain `INSERT` produces: listed columns from the
parameters, everything else at its column default. -/
def insertRow (params : PaymentParams) (freshId : Nat) : Payment :=
  { id := freshId
    tag := params.tag
    description := params.description
    uniqueRef := params.ref
    totalAmount := params.totalAmount
    currency := params.currency
    fiatServiceName := none
    cryptoCurrency := none
    cryptoCurrencyRate := none
    meta := .user params.meta
    status := .INITIATED
    transactionStatus := none
    clientSecret := none
    ptype := params.ptype
    identities := []
    transactions := [] }

/-- Embedding of `New` (src/unnamed/part_001): `INSERT ... ON CONFLICT
(unique_ref) DO UPDATE SET ... RETURNING *`.  The `unique_ref` column is
UNIQUE, so a conflict updates the (single) row with the same ref and
returns it; otherwise a fresh row is inserted and returned. -/
def paymentNew (db : DB) (params : PaymentParams) (freshId : Nat) :
    Payment × DB :=
  match db.payments.find? (fun q => q.uniqueRef = params.ref) with
  | some q0 =>
    let db' := { db with
      payments := db.payments.map fun q =>
        if q.uniqueRef = params.ref then upsertFields q params else q }
    (upsertFields q0 params, db')
  | none =>
    let row := insertRow params freshId
    (row, { db with payments := db.payments ++ [row] })

/-- The deposit `Transaction` literal `Deposit` builds, including the
derived fee `params.Amount - params.Transfer.Amount` when a second
identity exists. -/
def mkDepositTx (p : Payment) (i0 : PaymentIdentity) (freshId : Nat) :
    Transaction :=
  let base : Transaction :=
    { id := freshId
      paymentId := p.id
      identityId := i0.id
      txid := ""
      tag := "DEPOSIT"
      amount := p.totalAmount
      fee := 0
      discount := 0
      status := some .PENDING
      ttype := .DEPOSIT
      meta := .empty
      canceledAt := none
      verifiedAt := none }
  match p.identities with
  | _ :: i1 :: _ => { base with fee := p.totalAmount - i1.allocatedAmount }
  | _ => base

/-- The `FiatParams` literal `Deposit` forwards to `config.Fiats.Pay`,
including the transfer request built from the second identity. -/
def mkDepositParams (p : Payment) (svc : String) (i0 : PaymentIdentity) :
    FiatParams :=
  let base : FiatParams :=
    { serviceName := svc
      customer := i0.account
      currency := p.currency
      description := p.description
      amount := p.totalAmount
      transfer := none }
  match p.identities with
  | _ :: i1 :: _ =>
    { base with transfer := some ⟨i1.allocatedAmount, i1.account⟩ }
  | _ => base

/-- Embedding of `Payment.Deposit` (src/unnamed/part_001).  `adapter` is
`config.Fiats.Pay`; `freshId` the id the insert allocates; `now` the
timestamp of any `NOW()` in this call. -/
def deposit (db : DB) (p : Payment) (freshId now : Nat)
    (adapter : FiatParams → Except String FiatTransactionInfo) :
    Except GopayError Unit × DB :=
  if p.ptype ≠ .FIAT then
    (.error (.validation "only fiat payments can call this"), db)
  else
    match p.identities with
    | [] => (.error (.validation "you need to assign identity first"), db)
    | i0 :: _ =>
      match p.fiatServiceName with
      | none => (.error (.panic "nil pointer dereference"), db)
      | some svc =>
        let t := mkDepositTx p i0 freshId
        let params := mkDepositParams p svc i0
        let db1 := txInsert db t
        match adapter params with
        | .error e =>
          (.error (.adapter e),
            txCancel db1 { t with meta := .fiatInfo none (some e) } now)
        | .ok info =>
          let t2 := { t with meta := .fiatInfo (some info) none }
          if !info.confirmed && !info.requiresAction then
            (.ok (), txCancel db1 t2 now)
          else if info.requiresAction then
            let p2 := { p with
              transactionStatus := some .ACTION_REQUIRED
              clientSecret := some info.clientSecret
              status := .ON_HOLD }
            (.ok (), paymentUpdate db1 p2)
          else
            let db2 := txVerify db1 t2 now
            (.ok (), paymentUpdate db2 { p with status := .DEPOSITED })

/-- Embedding of `Payment.ConfirmPayment` (src/unnamed/part_001).
`adapter` is `config.Fiats.ConfirmPayment`.  Guards: fiat rail, `ON_HOLD`
with transaction status `ACTION_REQUIRED`, at least one transaction.  On
an adapter transport error the last transaction is canceled; when the
re-queried intent is not in the succeeded state an error is returned with
no store write; on success the last transaction is verified and the
payment becomes `DEPOSITED` with transaction status `VERIFIED`. -/
def confirmPayment (db : DB) (p : Payment) (paymentIntentID : String)
    (now : Nat)
    (adapter : FiatPaymentConfirmParams → Except String FiatPaymentConfirmInfo) :
    Except GopayError Unit × DB :=
  if p.ptype ≠ .FIAT then
    (.error (.validation "only fiat payments can call this"), db)
  else if ¬(p.status = .ON_HOLD ∧ p.transactionStatus = some .ACTION_REQUIRED) then
    (.error (.validation "only on-hold payments can be confirmed"), db)
  else
    match p.transactions.getLast? with
    | none => (.error (.validation "this payment has no transaction available"), db)
    | some t =>
      match p.fiatServiceName with
      | none => (.error (.panic "nil pointer dereference"), db)
      | some svc =>
        match adapter ⟨svc, paymentIntentID⟩ with
        | .error e =>
          (.error (.adapter e),
            txCancel db { t with meta := .confirmInfo none (some e) } now)
        | .ok info =>
          if !info.isConfirmed then
            (.error (.notConfirmed paymentIntentID), db)
          else
            let t2 := { t with meta := .confirmInfo (some info) none }
            let db2 := txVerify db t2 now
            let p2 := { p with
              transactionStatus := some .VERIFIED
              status := .DEPOSITED }
            (.ok (), paymentUpdate db2 p2)

/-- Embedding of `Payment.ConfirmDeposit` (src/unnamed/part_001).
`adapter` is `config.Chains.TransactionInfo`; `userMeta` the caller's
`meta interface{}` payload.  `p.Identities[0]` and `*p.CryptoCurrency`
panic when absent, in program order (the index is read while building the
transaction literal, the pointer after the insert). -/
def confirmDeposit (db : DB) (p : Payment) (txID : String) (userMeta : String)
    (freshId now : Nat)
    (adapter : CryptoParams → Except String CryptoTransactionInfo) :
    Except GopayError Unit × DB :=
  if p.ptype ≠ .CRYPTO then
    (.error (.validation "only crypto payments can call this"), db)
  else
    match p.identities with
    | [] => (.error (.panic "index out of range"), db)
    | i0 :: _ =>
      let t : Transaction :=
        { id := freshId
          paymentId := p.id
          identityId := i0.id
          txid := txID
          tag := "DEPOSIT"
          amount := p.totalAmount
          fee := 0
          discount := 0
          status := some .PENDING
          ttype := .DEPOSIT
          meta := .empty
          canceledAt := none
          verifiedAt := none }
      let db1 := txInsert db t
      match p.cryptoCurrency with
      | none => (.error (.panic "nil pointer dereference"), db1)
      | some tokenAddr =>
        match adapter ⟨txID, tokenAddr⟩ with
        | .error e =>
          (.error (.adapter e),
            txCancel db1 { t with meta := .cryptoInfo none userMeta (some e) } now)
        | .ok info =>
          let t2 := { t with meta := .cryptoInfo (some info) userMeta none }
          if !info.confirmed then
            (.ok (), txCancel db1 t2 now)
          else if info.totalAmount < t.amount then
            (.error (.amountMismatch t.amount info.totalAmount), db1)
          else
            let db2 := txVerify db1 t2 now
            let p2 := { p with status := .DEPOSITED, meta := .user userMeta }
            (.ok (), paymentUpdate db2 p2)

/-! ## Theorems -/

/-- The transactions table after `txUpdateBy`, spelled out. -/
theorem txUpdateBy_transactions (db : DB) (t : Transaction)
    (f : Transaction → Transaction) :
    (txUpdateBy db t f).transactions =
      db.transactions.map fun r => if r.id = t.id then f r else r := rfl

/-- `txVerify` maps the matching row through `verifyRow`. -/
theorem txVerify_transactions (db : DB) (t : Transaction) (now : Nat) :
    (txVerify db t now).transactions =
      db.transactions.map fun r => if r.id = t.id then verifyRow t now r else r :=
  rfl

/-- `txCancel` maps the matching row through `cancelRow`. -/
theorem txCancel_transactions (db : DB) (t : Transaction) (now : Nat) :
    (txCancel db t now).transactions =
      db.transactions.map fun r => if r.id = t.id then cancelRow t now r else r :=
  rfl

/-- `txInsert` appends the new row. -/
theorem txInsert_transactions (db : DB) (t : Transaction) :
    (txInsert db t).transactions = db.transactions ++ [t] := rfl

/-- Transaction writes never touch the identities table. -/
theorem txInsert_identities (db : DB) (t : Transaction) :
    (txInsert db t).identities = db.identities := rfl

/-- Row updates never touch the identities table. -/
theorem txUpdateBy_identities (db : DB) (t : Transaction)
    (f : Transaction → Transaction) :
    (txUpdateBy db t f).identities = db.identities := rfl

/-- `paymentUpdate` never touches the identities table. -/
theorem paymentUpdate_identities (db : DB) (p : Payment) :
    (paymentUpdate db p).identities = db.identities := rfl

/-- `paymentUpdate` never touches the transactions table. -/
theorem paymentUpdate_transactions (db : DB) (p : Payment) :
    (paymentUpdate db p).transactions = db.transactions := rfl

/-- The trigger only rewrites the derived `transaction_status` column: the
lifecycle `status` column of every payment row is preserved. -/
theorem fireTrigger_status_map (db : DB) (t : Transaction) :
    (fireTrigger db t).payments.map Payment.status =
      db.payments.map Payment.status := by
  simp only [fireTrigger, List.map_map]
  apply List.map_congr_left
  intro q _
  by_cases h : q.id = t.paymentId <;> simp [h]

/-- `txInsert` preserves every payment row's lifecycle status. -/
theorem txInsert_status_map (db : DB) (t : Transaction) :
    (txInsert db t).payments.map Payment.status =
      db.payments.map Payment.status :=
  fireTrigger_status_map _ t

/-- Claim C10: `stripeAmount` returns `0` for every currency other than
USD and JPY (so a charge in an unrecognized currency is submitted with a
zero amount), `int64(amount*100)` for USD and `int64(amount)` for JPY. -/
theorem stripeAmount_spec (amount : ℚ) (c : Currency)
    (h : c ≠ USD ∧ c ≠ JPY) :
    stripeAmount amount c = 0 ∧
    stripeAmount amount USD = goInt64 (amount * 100) ∧
    stripeAmount amount JPY = goInt64 amount := by
  refine ⟨?_, ?_, ?_⟩
  · simp [stripeAmount, h.1, h.2]
  · simp [stripeAmount]
  · simp [stripeAmount, USD, JPY]

/-- Witness for C10 at the concrete currency `"EUR"` and amount `3`. -/
theorem stripeAmount_spec_witness :
    (("EUR" : Currency) ≠ USD ∧ ("EUR" : Currency) ≠ JPY) ∧
    (stripeAmount 3 "EUR" = 0 ∧
     stripeAmount 3 USD = goInt64 (3 * 100) ∧
     stripeAmount 3 JPY = goInt64 3) :=
  ⟨⟨by decide, by decide⟩, stripeAmount_spec 3 "EUR" ⟨by decide, by decide⟩⟩

/-- Claim C9 counterexample: `"-1"` parses as the base-10 integer `-1`,
but the conversion returns `1` (Go's `big.Int.Exp` yields `1` for a
non-positive exponent), not `1 / 10 ^ (-1) = 10` as the claim's universal
statement requires. -/
theorem fromStrTokenValueToNumber_cex :
    parseBase10 "1" = some 1 ∧
    parseBase10 "-1" = some (-1) ∧
    fromStrTokenValueToNumber "1" "-1" = 1 ∧
    specTokenValue 1 (-1) = 10 ∧
    fromStrTokenValueToNumber "1" "-1" ≠ specTokenValue 1 (-1) := by
  have h3 : fromStrTokenValueToNumber "1" "-1" = 1 := by
    have hv : parseBase10 "1" = some 1 := by decide
    have hd : parseBase10 (strTrimSpace "-1") = some (-1) := by decide
    simp [fromStrTokenValueToNumber, hv, hd, bigIntExp10]
  have h4 : specTokenValue 1 (-1) = 10 := by norm_num [specTokenValue]
  exact ⟨by decide, by decide, h3, h4, by rw [h3, h4]; norm_num⟩

/-- Claim C9 (amended): when both strings parse as base-10 integers `v`
and `d` with `d ≥ 0`, the conversion returns exactly `v / 10 ^ d` in
arbitrary-precision arithmetic (before the final `float64` narrowing);
when `d < 0` the divisor degenerates to `1` and the value `v` itself is
returned; when either string fails to parse the sentinel `-1` is
returned. -/
theorem fromStrTokenValueToNumber_spec (vs ds : String) :
    (∀ v d : Int, parseBase10 vs = some v →
        parseBase10 (strTrimSpace ds) = some d →
      (0 ≤ d → fromStrTokenValueToNumber vs ds = specTokenValue v d) ∧
      (d < 0 → fromStrTokenValueToNumber vs ds = (v : ℚ))) ∧
    ((parseBase10 vs = none ∨ parseBase10 (strTrimSpace ds) = none) →
      fromStrTokenValueToNumber vs ds = -1) := by
  constructor
  · intro v d hv hd
    constructor
    · intro h0
      lift d to ℕ using h0 with n
      simp only [fromStrTokenValueToNumber, hv, hd, specTokenValue, bigIntExp10]
      rcases Nat.eq_zero_or_pos n with rfl | hn
      · norm_num
      · rw [if_neg (by omega), zpow_natCast]
        push_cast
        rw [Int.toNat_natCast]
    · intro hneg
      simp only [fromStrTokenValueToNumber, hv, hd, bigIntExp10]
      rw [if_pos (by omega)]
      norm_num
  · rintro (h | h)
    · simp [fromStrTokenValueToNumber, h]
    · cases hv : parseBase10 vs <;>
        simp [fromStrTokenValueToNumber, h, hv]

/-- Witness for C9 at `value = "12345"`, `decimals = "3"`:
`12345 / 10^3`. -/
theorem fromStrTokenValueToNumber_spec_witness :
    (parseBase10 "12345" = some 12345 ∧
      parseBase10 (strTrimSpace "3") = some 3 ∧ (0 : Int) ≤ 3) ∧
    fromStrTokenValueToNumber "12345" "3" = specTokenValue 12345 3 :=
  ⟨⟨by decide, by decide, by decide⟩,
    ((fromStrTokenValueToNumber_spec "12345" "3").1 12345 3 (by decide)
      (by decide)).1 (by decide)⟩

/-- Claim C4 counterexample: with the matched transfer row reporting
exactly 10 confirmations, the lookup does not retry (the retry guard is
`confirms < 10`) and returns a non-error result whose `confirmed` flag is
`false` (the flag is `confirms > 10`) — so callers do observe a non-error
result with `confirmed = false`. -/
theorem getEvmTXInfo_cex :
    getEvmTXInfoFuel
        (fun _ => .ok [⟨"100", "1700000000", "0xabc", "0xfrom", "0xc",
          "0xto", "50", "T", "T", "0", "10"⟩])
        "0xabc" ⟨"T", "T", "0xT", 0⟩ 0 1 =
      some (.ok (mkEvmInfo "0xabc" ⟨"T", "T", "0xT", 0⟩
        ⟨"100", "1700000000", "0xabc", "0xfrom", "0xc",
          "0xto", "50", "T", "T", "0", "10"⟩)) ∧
    (mkEvmInfo "0xabc" ⟨"T", "T", "0xT", 0⟩
        ⟨"100", "1700000000", "0xabc", "0xfrom", "0xc",
          "0xto", "50", "T", "T", "0", "10"⟩).confirmed = false := by
  constructor
  · have hrow : findTxRow [⟨"100", "1700000000", "0xabc", "0xfrom", "0xc",
        "0xto", "50", "T", "T", "0", "10"⟩] "0xabc" =
        some ⟨"100", "1700000000", "0xabc", "0xfrom", "0xc",
          "0xto", "50", "T", "T", "0", "10"⟩ := by decide
    have hc : atoiDefault "10" = 10 := by decide
    simp [getEvmTXInfoFuel, hrow, hc]
  · have hc : atoiDefault "10" = 10 := by decide
    simp [mkEvmInfo, hc]

/-- Claim C4 (amended): every non-error result of the account-model (EVM)
lookup comes from a matched row with at least 10 confirmations (below 10
the adapter retries after a fixed delay instead of returning), and its
`confirmed` flag equals `confirmations > 10` — in particular, at exactly
10 confirmations a non-error result with `confirmed = false` is returned,
so callers can observe a non-error pending result at that boundary. -/
theorem getEvmTXInfo_confirmed_spec
    (fetch : Nat → EvmFetch) (txHash : String) (token : CryptoToken)
    (k fuel : Nat) (info : CryptoTransactionInfo)
    (h : getEvmTXInfoFuel fetch txHash token k fuel = some (.ok info)) :
    ∃ j rows row, fetch j = .ok rows ∧ findTxRow rows txHash = some row ∧
      10 ≤ atoiDefault row.confirmations ∧
      info = mkEvmInfo txHash token row ∧
      info.confirmed = decide (10 < atoiDefault row.confirmations) := by
  induction fuel generalizing k with
  | zero => simp [getEvmTXInfoFuel] at h
  | succ n ih =>
    rw [getEvmTXInfoFuel] at h
    cases hf : fetch k with
    | error e => rw [hf] at h; dsimp only at h; simp at h
    | ok rows =>
      rw [hf] at h
      dsimp only at h
      cases hr : findTxRow rows txHash with
      | none => rw [hr] at h; dsimp only at h; simp at h
      | some row =>
        rw [hr] at h
        dsimp only at h
        by_cases hc : atoiDefault row.confirmations < 10
        · rw [if_pos hc] at h
          exact ih (k + 1) h
        · rw [if_neg hc] at h
          simp only [Option.some.injEq, Except.ok.injEq] at h
          refine ⟨k, rows, row, hf, hr, by omega, h.symm, ?_⟩
          rw [← h]
          rfl

/-- Witness for C4 (amended) at a row with 12 confirmations. -/
theorem getEvmTXInfo_confirmed_spec_witness :
    (getEvmTXInfoFuel
        (fun _ => .ok [⟨"100", "1700000000", "0xh", "0xf", "0xc",
          "0xt", "7", "T", "T", "0", "12"⟩])
        "0xh" ⟨"T", "T", "0xT", 0⟩ 0 1 =
      some (.ok (mkEvmInfo "0xh" ⟨"T", "T", "0xT", 0⟩
        ⟨"100", "1700000000", "0xh", "0xf", "0xc",
          "0xt", "7", "T", "T", "0", "12"⟩))) ∧
    ∃ j rows row,
      (fun _ : Nat => (.ok [⟨"100", "1700000000", "0xh", "0xf", "0xc",
          "0xt", "7", "T", "T", "0", "12"⟩] : EvmFetch)) j = .ok rows ∧
      findTxRow rows "0xh" = some row ∧
      10 ≤ atoiDefault row.confirmations ∧
      mkEvmInfo "0xh" ⟨"T", "T", "0xT", 0⟩
        ⟨"100", "1700000000", "0xh", "0xf", "0xc",
          "0xt", "7", "T", "T", "0", "12"⟩ = mkEvmInfo "0xh" ⟨"T", "T", "0xT", 0⟩ row ∧
      (mkEvmInfo "0xh" ⟨"T", "T", "0xT", 0⟩
        ⟨"100", "1700000000", "0xh", "0xf", "0xc",
          "0xt", "7", "T", "T", "0", "12"⟩).confirmed =
        decide (10 < atoiDefault row.confirmations) := by
  have h : getEvmTXInfoFuel
      (fun _ => .ok [⟨"100", "1700000000", "0xh", "0xf", "0xc",
        "0xt", "7", "T", "T", "0", "12"⟩])
      "0xh" ⟨"T", "T", "0xT", 0⟩ 0 1 =
      some (.ok (mkEvmInfo "0xh" ⟨"T", "T", "0xT", 0⟩
        ⟨"100", "1700000000", "0xh", "0xf", "0xc",
          "0xt", "7", "T", "T", "0", "12"⟩)) := by
    have hrow : findTxRow [⟨"100", "1700000000", "0xh", "0xf", "0xc",
        "0xt", "7", "T", "T", "0", "12"⟩] "0xh" =
        some ⟨"100", "1700000000", "0xh", "0xf", "0xc",
          "0xt", "7", "T", "T", "0", "12"⟩ := by decide
    have hc : atoiDefault "12" = 12 := by decide
    simp [getEvmTXInfoFuel, hrow, hc]
  exact ⟨h, getEvmTXInfo_confirmed_spec _ "0xh" ⟨"T", "T", "0xT", 0⟩ 0 1 _ h⟩

/-- Claim C5 counterexample: against an explorer that keeps reporting 5
confirmations, the lookup has not terminated after 20 attempts — the
"worst case about 20 attempts" bound of the claim does not exist. -/
theorem getEvmTXInfo_bounded_cex :
    getEvmTXInfoFuel
        (fun _ => .ok [⟨"100", "1700000000", "0xs", "0xf", "0xc",
          "0xt", "7", "T", "T", "0", "5"⟩])
        "0xs" ⟨"T", "T", "0xT", 0⟩ 0 20 = none := by
  have hrow : findTxRow [⟨"100", "1700000000", "0xs", "0xf", "0xc",
      "0xt", "7", "T", "T", "0", "5"⟩] "0xs" =
      some ⟨"100", "1700000000", "0xs", "0xf", "0xc",
        "0xt", "7", "T", "T", "0", "5"⟩ := by decide
  have hc : atoiDefault "5" = 5 := by decide
  have step : ∀ k n, getEvmTXInfoFuel
      (fun _ => .ok [⟨"100", "1700000000", "0xs", "0xf", "0xc",
        "0xt", "7", "T", "T", "0", "5"⟩])
      "0xs" ⟨"T", "T", "0xT", 0⟩ k (n + 1) =
      getEvmTXInfoFuel
        (fun _ => .ok [⟨"100", "1700000000", "0xs", "0xf", "0xc",
          "0xt", "7", "T", "T", "0", "5"⟩])
        "0xs" ⟨"T", "T", "0xT", 0⟩ (k + 1) n := by
    intro k n
    rw [getEvmTXInfoFuel]
    simp [hrow, hc]
  rw [step, step, step, step, step, step, step, step, step, step,
    step, step, step, step, step, step, step, step, step, step]
  rfl

/-- Claim C5 (amended): the confirmation-depth wait is an unbounded
retry, not a bounded one: whenever every explorer response matches a row
with fewer than 10 confirmations, the lookup is still retrying after any
number of attempts (the Go recursion never returns). -/
theorem getEvmTXInfo_unbounded_retry
    (fetch : Nat → EvmFetch) (txHash : String) (token : CryptoToken)
    (h : ∀ j, ∃ rows row, fetch j = .ok rows ∧
      findTxRow rows txHash = some row ∧ atoiDefault row.confirmations < 10) :
    ∀ fuel k, getEvmTXInfoFuel fetch txHash token k fuel = none := by
  intro fuel
  induction fuel with
  | zero => intro k; rfl
  | succ n ih =>
    intro k
    obtain ⟨rows, row, hf, hr, hc⟩ := h k
    rw [getEvmTXInfoFuel, hf]
    simp only [hr, if_pos hc]
    exact ih (k + 1)

/-- Witness for C5 (amended): the constant 5-confirmation explorer keeps
the lookup running past 21 attempts. -/
theorem getEvmTXInfo_unbounded_retry_witness :
    getEvmTXInfoFuel
        (fun _ => .ok [⟨"100", "1700000000", "0xs", "0xf", "0xc",
          "0xt", "7", "T", "T", "0", "5"⟩])
        "0xs" ⟨"T", "T", "0xT", 0⟩ 0 21 = none :=
  getEvmTXInfo_unbounded_retry _ "0xs" ⟨"T", "T", "0xT", 0⟩
    (fun _ =>
      ⟨[⟨"100", "1700000000", "0xs", "0xf", "0xc",
          "0xt", "7", "T", "T", "0", "5"⟩],
        ⟨"100", "1700000000", "0xs", "0xf", "0xc",
          "0xt", "7", "T", "T", "0", "5"⟩, rfl, by decide, by decide⟩) 21 0

/-- Claim C8 counterexample: on a transaction whose output-amount list is
`[(lovelace, 7), (T1, 5)]` with configured token address `T1`, the lookup
returns amount `7` — the first entry, whose unit is *not* the configured
token — and returns recipient `inA1`, the second UTXO *input* address,
which is not among the UTXO output addresses (`[outA0]`). -/
theorem getCardanoTXInfo_cex :
    (getCardanoTXInfo "h" ⟨"ADA", "ADA", "T1", 0⟩
        (.ok ⟨"blk", [⟨"lovelace", "7"⟩, ⟨"T1", "5"⟩]⟩)
        (.ok ⟨[⟨"inA0", []⟩, ⟨"inA1", []⟩], [⟨"outA0", []⟩]⟩)
        (.ok ⟨100⟩)).map CryptoTransactionInfo.toAddr = .ok "inA1" ∧
    ("inA1" ∈ ["outA0"]) = False ∧
    (getCardanoTXInfo "h" ⟨"ADA", "ADA", "T1", 0⟩
        (.ok ⟨"blk", [⟨"lovelace", "7"⟩, ⟨"T1", "5"⟩]⟩)
        (.ok ⟨[⟨"inA0", []⟩, ⟨"inA1", []⟩], [⟨"outA0", []⟩]⟩)
        (.ok ⟨100⟩)).map CryptoTransactionInfo.totalAmount = .ok 7 ∧
    fromStrTokenValueToNumber "5" "0" = 5 ∧ (7 : ℚ) ≠ 5 := by
  refine ⟨?_, by simp, ?_, ?_, by norm_num⟩
  · rfl
  · have h7 : fromStrTokenValueToNumber "7" (toString (0 : Int)) = 7 := by
      have hv : parseBase10 "7" = some 7 := by decide
      have hd : parseBase10 (strTrimSpace (toString (0 : Int))) = some 0 := by decide
      simp [fromStrTokenValueToNumber, hv, hd, bigIntExp10]
    simp [getCardanoTXInfo, h7, Except.map]
  · have hv : parseBase10 "5" = some 5 := by decide
    have hd : parseBase10 (strTrimSpace "0") = some 0 := by decide
    simp [fromStrTokenValueToNumber, hv, hd, bigIntExp10]

/-- Claim C8 (amended): a ledger-model (Cardano) lookup whose three
indexer calls succeed returns `confirmed = true` unconditionally, but the
amount is taken from the *first* transaction-level output amount, scaled
by the configured token's decimals, with no matching of the token unit
against the configured token address; the sender is the first UTXO
*input* address and the recipient is the *second UTXO input address*, not
an output address. -/
theorem getCardanoTXInfo_spec (txHash : String) (token : CryptoToken)
    (tx : TransactionContent) (utxos : TransactionUTXOs)
    (block : CardanoBlock) (out0 : TxAmount) (outRest : List TxAmount)
    (in0 in1 : TxUtxo) (inRest : List TxUtxo)
    (hout : tx.outputAmount = out0 :: outRest)
    (hin : utxos.inputs = in0 :: in1 :: inRest) :
    getCardanoTXInfo txHash token (.ok tx) (.ok utxos) (.ok block) =
      .ok
        { txHash := txHash
          totalAmount :=
            fromStrTokenValueToNumber out0.quantity (toString token.decimals)
          date := block.time
          fromAddr := in0.address
          toAddr := in1.address
          metaRaw := some (.cardano tx utxos block)
          token := token
          confirmed := true
          message := "" } := by
  simp only [getCardanoTXInfo, hout, hin]

/-- Witness for C8 (amended) at a concrete two-input transaction. -/
theorem getCardanoTXInfo_spec_witness :
    ((⟨"blk", [⟨"u", "9"⟩]⟩ : TransactionContent).outputAmount =
        ⟨"u", "9"⟩ :: [] ∧
      (⟨[⟨"a0", []⟩, ⟨"a1", []⟩], []⟩ : TransactionUTXOs).inputs =
        ⟨"a0", []⟩ :: ⟨"a1", []⟩ :: []) ∧
    getCardanoTXInfo "h2" ⟨"N", "S", "A", 2⟩
        (.ok ⟨"blk", [⟨"u", "9"⟩]⟩)
        (.ok ⟨[⟨"a0", []⟩, ⟨"a1", []⟩], []⟩) (.ok ⟨7⟩) =
      .ok
        { txHash := "h2"
          totalAmount := fromStrTokenValueToNumber "9" (toString (2 : Int))
          date := 7
          fromAddr := "a0"
          toAddr := "a1"
          metaRaw := some (.cardano ⟨"blk", [⟨"u", "9"⟩]⟩
            ⟨[⟨"a0", []⟩, ⟨"a1", []⟩], []⟩ ⟨7⟩)
          token := ⟨"N", "S", "A", 2⟩
          confirmed := true
          message := "" } :=
  ⟨⟨rfl, rfl⟩,
    getCardanoTXInfo_spec "h2" ⟨"N", "S", "A", 2⟩ ⟨"blk", [⟨"u", "9"⟩]⟩
      ⟨[⟨"a0", []⟩, ⟨"a1", []⟩], []⟩ ⟨7⟩ ⟨"u", "9"⟩ [] ⟨"a0", []⟩
      ⟨"a1", []⟩ [] rfl rfl⟩

/-- Claim C3 counterexample: on a Transaction already terminal (it
carries `canceled_at`, so its derived status is `CANCELED`), the ledger
`Verify` call still succeeds — its SQL has no terminal-state guard — and
mutates the row by setting `verified_at`. -/
theorem ledger_terminal_cex :
    txDerivedStatus ⟨1, 1, 1, "tx", "DEPOSIT", 50, 0, 0, some .CANCELED,
        .DEPOSIT, .empty, some 1, none⟩ = some .CANCELED ∧
    ledgerVerify
        ⟨[], [], [⟨1, 1, 1, "tx", "DEPOSIT", 50, 0, 0, some .CANCELED,
          .DEPOSIT, .empty, some 1, none⟩]⟩
        ⟨1, 1, 1, "tx", "DEPOSIT", 50, 0, 0, some .CANCELED,
          .DEPOSIT, .empty, some 1, none⟩ 2 =
      .ok ⟨[], [], [⟨1, 1, 1, "tx", "DEPOSIT", 50, 0, 0, some .CANCELED,
        .DEPOSIT, .empty, some 1, some 2⟩]⟩ ∧
    (⟨1, 1, 1, "tx", "DEPOSIT", 50, 0, 0, some .CANCELED,
        .DEPOSIT, .empty, some 1, some 2⟩ : Transaction) ≠
      ⟨1, 1, 1, "tx", "DEPOSIT", 50, 0, 0, some .CANCELED,
        .DEPOSIT, .empty, some 1, none⟩ :=
  ⟨rfl, rfl, by decide⟩

/-- Claim C3 (amended): the ledger operations themselves enforce no
terminal-state guard — `Verify` and `Cancel` succeed on any existing
Transaction row, terminal or not, and mutate its timestamps — while a new
settlement attempt always inserts a fresh Transaction row
(`Transaction.Create` appends; it never reopens an old row).  The
once-only discipline the claim describes is not enforced on the
Transaction itself. -/
theorem ledger_ops_unguarded (db : DB) (t tNew : Transaction) (now : Nat)
    (hmem : (db.transactions.any fun r => r.id = t.id) = true) :
    (∃ db', ledgerVerify db t now = .ok db') ∧
    (∃ db', ledgerCancel db t now = .ok db') ∧
    (∀ db', ledgerVerify db t now = .ok db' →
      ∀ r ∈ db'.transactions, r.id = t.id → r.verifiedAt = some now) ∧
    (∀ db', ledgerCancel db t now = .ok db' →
      ∀ r ∈ db'.transactions, r.id = t.id → r.canceledAt = some now) ∧
    (txInsert db tNew).transactions.length = db.transactions.length + 1 := by
  refine ⟨⟨txVerify db t now, by rw [ledgerVerify, if_pos hmem]⟩,
    ⟨txCancel db t now, by rw [ledgerCancel, if_pos hmem]⟩, ?_, ?_, ?_⟩
  · intro db' hdb r hr hid
    rw [ledgerVerify, if_pos hmem] at hdb
    injection hdb with hdb
    subst hdb
    rw [txVerify_transactions] at hr
    obtain ⟨r0, _, rfl⟩ := List.mem_map.mp hr
    by_cases h0 : r0.id = t.id
    · simp [verifyRow, h0]
    · rw [if_neg h0] at hid
      exact absurd hid h0
  · intro db' hdb r hr hid
    rw [ledgerCancel, if_pos hmem] at hdb
    injection hdb with hdb
    subst hdb
    rw [txCancel_transactions] at hr
    obtain ⟨r0, _, rfl⟩ := List.mem_map.mp hr
    by_cases h0 : r0.id = t.id
    · simp [cancelRow, h0]
    · rw [if_neg h0] at hid
      exact absurd hid h0
  · rw [txInsert_transactions]
    simp

/-- Witness for C3 (amended) on a one-row ledger holding a canceled
transaction. -/
theorem ledger_ops_unguarded_witness :
    ((([⟨1, 1, 1, "tx", "DEPOSIT", 50, 0, 0, some .CANCELED,
        .DEPOSIT, .empty, some 1, none⟩] : List Transaction).any
          fun r => r.id = 1) = true) ∧
    ((∃ db', ledgerVerify
        ⟨[], [], [⟨1, 1, 1, "tx", "DEPOSIT", 50, 0, 0, some .CANCELED,
          .DEPOSIT, .empty, some 1, none⟩]⟩
        ⟨1, 1, 1, "tx", "DEPOSIT", 50, 0, 0, some .CANCELED,
          .DEPOSIT, .empty, some 1, none⟩ 3 = .ok db') ∧
      (∃ db', ledgerCancel
        ⟨[], [], [⟨1, 1, 1, "tx", "DEPOSIT", 50, 0, 0, some .CANCELED,
          .DEPOSIT, .empty, some 1, none⟩]⟩
        ⟨1, 1, 1, "tx", "DEPOSIT", 50, 0, 0, some .CANCELED,
          .DEPOSIT, .empty, some 1, none⟩ 3 = .ok db') ∧
      (∀ db', ledgerVerify
        ⟨[], [], [⟨1, 1, 1, "tx", "DEPOSIT", 50, 0, 0, some .CANCELED,
          .DEPOSIT, .empty, some 1, none⟩]⟩
        ⟨1, 1, 1, "tx", "DEPOSIT", 50, 0, 0, some .CANCELED,
          .DEPOSIT, .empty, some 1, none⟩ 3 = .ok db' →
        ∀ r ∈ db'.transactions, r.id = 1 → r.verifiedAt = some 3) ∧
      (∀ db', ledgerCancel
        ⟨[], [], [⟨1, 1, 1, "tx", "DEPOSIT", 50, 0, 0, some .CANCELED,
          .DEPOSIT, .empty, some 1, none⟩]⟩
        ⟨1, 1, 1, "tx", "DEPOSIT", 50, 0, 0, some .CANCELED,
          .DEPOSIT, .empty, some 1, none⟩ 3 = .ok db' →
        ∀ r ∈ db'.transactions, r.id = 1 → r.canceledAt = some 3) ∧
      (txInsert
        ⟨[], [], [⟨1, 1, 1, "tx", "DEPOSIT", 50, 0, 0, some .CANCELED,
          .DEPOSIT, .empty, some 1, none⟩]⟩
        ⟨2, 1, 1, "tx2", "DEPOSIT", 50, 0, 0, some .PENDING,
          .DEPOSIT, .empty, none, none⟩).transactions.length =
        ([⟨1, 1, 1, "tx", "DEPOSIT", 50, 0, 0, some .CANCELED,
          .DEPOSIT, .empty, some 1, none⟩] : List Transaction).length + 1) :=
  ⟨by decide,
    ledger_ops_unguarded
      ⟨[], [], [⟨1, 1, 1, "tx", "DEPOSIT", 50, 0, 0, some .CANCELED,
        .DEPOSIT, .empty, some 1, none⟩]⟩
      ⟨1, 1, 1, "tx", "DEPOSIT", 50, 0, 0, some .CANCELED,
        .DEPOSIT, .empty, some 1, none⟩
      ⟨2, 1, 1, "tx2", "DEPOSIT", 50, 0, 0, some .PENDING,
        .DEPOSIT, .empty, none, none⟩ 3 (by decide)⟩

/-- Claim C1: on a crypto-rail payment, when the adapter reports
`confirmed = true` with a total amount strictly below the payment's
expected amount, `ConfirmDeposit` returns the amount-mismatch error, the
freshly created Transaction is left exactly as created (neither verified
nor canceled, still `PENDING` — the amount check runs strictly before
`Verify`), and every payment row's lifecycle status is unchanged from its
pre-call value. -/
theorem confirmDeposit_amountMismatch (db : DB) (p : Payment)
    (txID userMeta : String) (freshId now : Nat)
    (adapter : CryptoParams → Except String CryptoTransactionInfo)
    (i0 : PaymentIdentity) (rest : List PaymentIdentity) (addr : String)
    (info : CryptoTransactionInfo)
    (hty : p.ptype = .CRYPTO)
    (hids : p.identities = i0 :: rest)
    (haddr : p.cryptoCurrency = some addr)
    (hadapter : adapter ⟨txID, addr⟩ = .ok info)
    (hconf : info.confirmed = true)
    (hlt : info.totalAmount < p.totalAmount) :
    (confirmDeposit db p txID userMeta freshId now adapter).1 =
      .error (.amountMismatch p.totalAmount info.totalAmount) ∧
    (∃ r ∈ (confirmDeposit db p txID userMeta freshId now adapter).2.transactions,
      r.id = freshId ∧ r.txid = txID ∧ r.amount = p.totalAmount ∧
      r.verifiedAt = none ∧ r.canceledAt = none ∧ r.status = some .PENDING) ∧
    (confirmDeposit db p txID userMeta freshId now adapter).2.payments.map
        Payment.status =
      db.payments.map Payment.status := by
  have hne : ¬p.ptype ≠ PaymentType.CRYPTO := by rw [hty]; simp
  have key : confirmDeposit db p txID userMeta freshId now adapter =
      (.error (.amountMismatch p.totalAmount info.totalAmount),
        txInsert db
          { id := freshId, paymentId := p.id, identityId := i0.id,
            txid := txID, tag := "DEPOSIT", amount := p.totalAmount,
            fee := 0, discount := 0, status := some .PENDING,
            ttype := .DEPOSIT, meta := .empty,
            canceledAt := none, verifiedAt := none }) := by
    rw [confirmDeposit, if_neg hne, hids]
    simp only [haddr, hadapter, hconf, Bool.not_true, Bool.false_eq_true,
      if_false]
    rw [if_pos hlt]
  rw [key]
  refine ⟨rfl,
    ⟨{ id := freshId, paymentId := p.id, identityId := i0.id,
        txid := txID, tag := "DEPOSIT", amount := p.totalAmount, fee := 0,
        discount := 0, status := some .PENDING, ttype := .DEPOSIT,
        meta := .empty, canceledAt := none, verifiedAt := none }, ?_,
      rfl, rfl, rfl, rfl, rfl, rfl⟩, txInsert_status_map db _⟩
  rw [txInsert_transactions]
  exact List.mem_append_right _ (List.mem_singleton.mpr rfl)

/-- Witness for C1: the spec's Scenario C — expected amount 50, token
address `T1`, adapter reporting amount 40 with `confirmed = true`. -/
theorem confirmDeposit_amountMismatch_witness :
    (((⟨7, "t", "d", "order-9", 50, "USD", none, some "T1", some 1,
        .empty, .INITIATED, none, none, .CRYPTO,
        [⟨21, 7, 3, "acct", "payer", 50, .empty⟩], []⟩ : Payment).ptype =
          PaymentType.CRYPTO) ∧
      (⟨21, 7, 3, "acct", "payer", 50, .empty⟩ : PaymentIdentity) ::
          ([] : List PaymentIdentity) =
        ⟨21, 7, 3, "acct", "payer", 50, .empty⟩ :: [] ∧
      ((40 : ℚ) < 50)) ∧
    ((confirmDeposit ⟨[⟨7, "t", "d", "order-9", 50, "USD", none, some "T1",
        some 1, .empty, .INITIATED, none, none, .CRYPTO,
        [⟨21, 7, 3, "acct", "payer", 50, .empty⟩], []⟩], [], []⟩
      ⟨7, "t", "d", "order-9", 50, "USD", none, some "T1", some 1,
        .empty, .INITIATED, none, none, .CRYPTO,
        [⟨21, 7, 3, "acct", "payer", 50, .empty⟩], []⟩
      "0xdead" "m" 31 9
      (fun _ => .ok ⟨"0xdead", 40, "to", "fr", ⟨"T", "T", "T1", 6⟩, 0,
        true, "", none⟩)).1 =
        .error (.amountMismatch 50 40) ∧
    (∃ r ∈ (confirmDeposit ⟨[⟨7, "t", "d", "order-9", 50, "USD", none,
        some "T1", some 1, .empty, .INITIATED, none, none, .CRYPTO,
        [⟨21, 7, 3, "acct", "payer", 50, .empty⟩], []⟩], [], []⟩
      ⟨7, "t", "d", "order-9", 50, "USD", none, some "T1", some 1,
        .empty, .INITIATED, none, none, .CRYPTO,
        [⟨21, 7, 3, "acct", "payer", 50, .empty⟩], []⟩
      "0xdead" "m" 31 9
      (fun _ => .ok ⟨"0xdead", 40, "to", "fr", ⟨"T", "T", "T1", 6⟩, 0,
        true, "", none⟩)).2.transactions,
      r.id = 31 ∧ r.txid = "0xdead" ∧ r.amount = 50 ∧
      r.verifiedAt = none ∧ r.canceledAt = none ∧ r.status = some .PENDING) ∧
    (confirmDeposit ⟨[⟨7, "t", "d", "order-9", 50, "USD", none, some "T1",
        some 1, .empty, .INITIATED, none, none, .CRYPTO,
        [⟨21, 7, 3, "acct", "payer", 50, .empty⟩], []⟩], [], []⟩
      ⟨7, "t", "d", "order-9", 50, "USD", none, some "T1", some 1,
        .empty, .INITIATED, none, none, .CRYPTO,
        [⟨21, 7, 3, "acct", "payer", 50, .empty⟩], []⟩
      "0xdead" "m" 31 9
      (fun _ => .ok ⟨"0xdead", 40, "to", "fr", ⟨"T", "T", "T1", 6⟩, 0,
        true, "", none⟩)).2.payments.map Payment.status =
      [PaymentStatus.INITIATED]) :=
  ⟨⟨rfl, rfl, by norm_num⟩,
    confirmDeposit_amountMismatch _ _ "0xdead" "m" 31 9 _
      ⟨21, 7, 3, "acct", "payer", 50, .empty⟩ [] "T1"
      ⟨"0xdead", 40, "to", "fr", ⟨"T", "T", "T1", 6⟩, 0, true, "", none⟩
      rfl rfl rfl rfl rfl (by norm_num)⟩

/-- Every run of `Deposit` leaves the identities table untouched: each
branch only inserts or updates transaction rows and payment rows. -/
theorem deposit_identities (db : DB) (p : Payment) (freshId now : Nat)
    (adapter : FiatParams → Except String FiatTransactionInfo) :
    (deposit db p freshId now adapter).2.identities = db.identities := by
  rw [deposit]
  split
  · rfl
  · split
    · rfl
    · split
      · rfl
      · dsimp only
        split
        · rfl
        · split
          · rfl
          · split
            · rfl
            · rfl

/-- Past its guards, `Deposit` always inserts the deposit transaction and
no later write of the same call changes its `id`, `fee` or `amount`. -/
theorem deposit_appends_transaction (db : DB) (p : Payment)
    (freshId now : Nat)
    (adapter : FiatParams → Except String FiatTransactionInfo)
    (i0 : PaymentIdentity) (rest : List PaymentIdentity) (svc : String)
    (hty : p.ptype = .FIAT) (hids : p.identities = i0 :: rest)
    (hsvc : p.fiatServiceName = some svc) :
    ∃ r ∈ (deposit db p freshId now adapter).2.transactions,
      r.id = freshId ∧ r.fee = (mkDepositTx p i0 freshId).fee ∧
      r.amount = p.totalAmount := by
  have hne : ¬p.ptype ≠ PaymentType.FIAT := by rw [hty]; simp
  have hid : (mkDepositTx p i0 freshId).id = freshId := by
    rw [mkDepositTx, hids]; cases rest <;> rfl
  have ham : (mkDepositTx p i0 freshId).amount = p.totalAmount := by
    rw [mkDepositTx, hids]; cases rest <;> rfl
  have hmem : mkDepositTx p i0 freshId ∈
      db.transactions ++ [mkDepositTx p i0 freshId] :=
    List.mem_append_right _ (List.mem_singleton.mpr rfl)
  rw [deposit, if_neg hne, hids]
  dsimp only
  rw [hsvc]
  dsimp only
  cases hA : adapter (mkDepositParams p svc i0) with
  | error e =>
    dsimp only
    refine ⟨cancelRow { mkDepositTx p i0 freshId with
        meta := .fiatInfo none (some e) } now (mkDepositTx p i0 freshId),
      ?_, ?_, ?_, ?_⟩
    · rw [txCancel_transactions, txInsert_transactions]
      simp
    · simp [cancelRow, hid]
    · simp [cancelRow]
    · simp [cancelRow, ham]
  | ok info =>
    dsimp only
    cases hB : !info.confirmed && !info.requiresAction with
    | true =>
      rw [if_pos rfl]
      refine ⟨cancelRow { mkDepositTx p i0 freshId with
          meta := .fiatInfo (some info) none } now (mkDepositTx p i0 freshId),
        ?_, ?_, ?_, ?_⟩
      · rw [txCancel_transactions, txInsert_transactions]
        simp
      · simp [cancelRow, hid]
      · simp [cancelRow]
      · simp [cancelRow, ham]
    | false =>
      rw [if_neg (by simp)]
      cases hR : info.requiresAction with
      | true =>
        rw [if_pos rfl]
        refine ⟨mkDepositTx p i0 freshId, ?_, hid, rfl, ham⟩
        rw [paymentUpdate_transactions, txInsert_transactions]
        exact hmem
      | false =>
        rw [if_neg (by simp)]
        refine ⟨verifyRow { mkDepositTx p i0 freshId with
            meta := .fiatInfo (some info) none } now (mkDepositTx p i0 freshId),
          ?_, ?_, ?_, ?_⟩
        · rw [paymentUpdate_transactions, txVerify_transactions,
            txInsert_transactions]
          simp
        · simp [verifyRow, hid]
        · simp [verifyRow]
        · simp [verifyRow, ham]

/-- Claim C7: on a fiat payment with two identities, `Deposit` forwards a
transfer request whose destination is the second identity's account and
whose amount is its allocated amount; the created Transaction's fee is
`total − transfer amount`; and both identity rows remain persisted —
`Deposit` never writes the identities table. -/
theorem deposit_transfer_fee (db : DB) (p : Payment) (freshId now : Nat)
    (adapter : FiatParams → Except String FiatTransactionInfo)
    (i0 i1 : PaymentIdentity) (rest : List PaymentIdentity) (svc : String)
    (hty : p.ptype = .FIAT)
    (hids : p.identities = i0 :: i1 :: rest)
    (hsvc : p.fiatServiceName = some svc)
    (hi0 : i0 ∈ db.identities) (hi1 : i1 ∈ db.identities) :
    (mkDepositParams p svc i0).transfer =
      some ⟨i1.allocatedAmount, i1.account⟩ ∧
    (mkDepositTx p i0 freshId).fee = p.totalAmount - i1.allocatedAmount ∧
    (∃ r ∈ (deposit db p freshId now adapter).2.transactions,
      r.id = freshId ∧ r.fee = p.totalAmount - i1.allocatedAmount ∧
      r.amount = p.totalAmount) ∧
    (deposit db p freshId now adapter).2.identities = db.identities ∧
    i0 ∈ (deposit db p freshId now adapter).2.identities ∧
    i1 ∈ (deposit db p freshId now adapter).2.identities := by
  have hfee : (mkDepositTx p i0 freshId).fee =
      p.totalAmount - i1.allocatedAmount := by
    rw [mkDepositTx, hids]
  have hidsq : (deposit db p freshId now adapter).2.identities =
      db.identities := deposit_identities db p freshId now adapter
  obtain ⟨r, hrmem, hrid, hrfee, hram⟩ :=
    deposit_appends_transaction db p freshId now adapter i0 (i1 :: rest)
      svc hty hids hsvc
  exact ⟨by rw [mkDepositParams, hids], hfee,
    ⟨r, hrmem, hrid, by rw [hrfee, hfee], hram⟩, hidsq,
    by rw [hidsq]; exact hi0, by rw [hidsq]; exact hi1⟩

/-- Witness for C7: the spec's Scenario D — payer plus a transfer
destination allocated 90 of a 100 total; the fee comes out as 10. -/
theorem deposit_transfer_fee_witness :
    ((⟨8, "t", "d", "order-2", 100, "USD", some "STRIPE", none, none,
        .empty, .INITIATED, none, none, .FIAT,
        [⟨41, 8, 4, "cus_1", "payer", 100, .empty⟩,
         ⟨42, 8, 5, "acct_2", "seller", 90, .empty⟩], []⟩ : Payment).ptype =
      PaymentType.FIAT) ∧
    ((mkDepositParams ⟨8, "t", "d", "order-2", 100, "USD", some "STRIPE",
        none, none, .empty, .INITIATED, none, none, .FIAT,
        [⟨41, 8, 4, "cus_1", "payer", 100, .empty⟩,
         ⟨42, 8, 5, "acct_2", "seller", 90, .empty⟩], []⟩ "STRIPE"
        ⟨41, 8, 4, "cus_1", "payer", 100, .empty⟩).transfer =
      some ⟨90, "acct_2"⟩ ∧
    (mkDepositTx ⟨8, "t", "d", "order-2", 100, "USD", some "STRIPE",
        none, none, .empty, .INITIATED, none, none, .FIAT,
        [⟨41, 8, 4, "cus_1", "payer", 100, .empty⟩,
         ⟨42, 8, 5, "acct_2", "seller", 90, .empty⟩], []⟩
        ⟨41, 8, 4, "cus_1", "payer", 100, .empty⟩ 51).fee = 100 - 90 ∧
    (∃ r ∈ (deposit ⟨[], [⟨41, 8, 4, "cus_1", "payer", 100, .empty⟩,
        ⟨42, 8, 5, "acct_2", "seller", 90, .empty⟩], []⟩
      ⟨8, "t", "d", "order-2", 100, "USD", some "STRIPE", none, none,
        .empty, .INITIATED, none, none, .FIAT,
        [⟨41, 8, 4, "cus_1", "payer", 100, .empty⟩,
         ⟨42, 8, 5, "acct_2", "seller", 90, .empty⟩], []⟩ 51 9
      (fun _ => .ok ⟨"pi_1", 10000, "usd", 0, true, false, ""⟩)).2.transactions,
      r.id = 51 ∧ r.fee = 100 - 90 ∧ r.amount = 100) ∧
    (deposit ⟨[], [⟨41, 8, 4, "cus_1", "payer", 100, .empty⟩,
        ⟨42, 8, 5, "acct_2", "seller", 90, .empty⟩], []⟩
      ⟨8, "t", "d", "order-2", 100, "USD", some "STRIPE", none, none,
        .empty, .INITIATED, none, none, .FIAT,
        [⟨41, 8, 4, "cus_1", "payer", 100, .empty⟩,
         ⟨42, 8, 5, "acct_2", "seller", 90, .empty⟩], []⟩ 51 9
      (fun _ => .ok ⟨"pi_1", 10000, "usd", 0, true, false, ""⟩)).2.identities =
      [⟨41, 8, 4, "cus_1", "payer", 100, .empty⟩,
       ⟨42, 8, 5, "acct_2", "seller", 90, .empty⟩] ∧
    ⟨41, 8, 4, "cus_1", "payer", 100, .empty⟩ ∈
      (deposit ⟨[], [⟨41, 8, 4, "cus_1", "payer", 100, .empty⟩,
          ⟨42, 8, 5, "acct_2", "seller", 90, .empty⟩], []⟩
        ⟨8, "t", "d", "order-2", 100, "USD", some "STRIPE", none, none,
          .empty, .INITIATED, none, none, .FIAT,
          [⟨41, 8, 4, "cus_1", "payer", 100, .empty⟩,
           ⟨42, 8, 5, "acct_2", "seller", 90, .empty⟩], []⟩ 51 9
        (fun _ => .ok ⟨"pi_1", 10000, "usd", 0, true, false, ""⟩)).2.identities ∧
    ⟨42, 8, 5, "acct_2", "seller", 90, .empty⟩ ∈
      (deposit ⟨[], [⟨41, 8, 4, "cus_1", "payer", 100, .empty⟩,
          ⟨42, 8, 5, "acct_2", "seller", 90, .empty⟩], []⟩
        ⟨8, "t", "d", "order-2", 100, "USD", some "STRIPE", none, none,
          .empty, .INITIATED, none, none, .FIAT,
          [⟨41, 8, 4, "cus_1", "payer", 100, .empty⟩,
           ⟨42, 8, 5, "acct_2", "seller", 90, .empty⟩], []⟩ 51 9
        (fun _ => .ok ⟨"pi_1", 10000, "usd", 0, true, false, ""⟩)).2.identities) :=
  ⟨rfl,
    deposit_transfer_fee ⟨[], [⟨41, 8, 4, "cus_1", "payer", 100, .empty⟩,
        ⟨42, 8, 5, "acct_2", "seller", 90, .empty⟩], []⟩
      ⟨8, "t", "d", "order-2", 100, "USD", some "STRIPE", none, none,
        .empty, .INITIATED, none, none, .FIAT,
        [⟨41, 8, 4, "cus_1", "payer", 100, .empty⟩,
         ⟨42, 8, 5, "acct_2", "seller", 90, .empty⟩], []⟩ 51 9
      (fun _ => .ok ⟨"pi_1", 10000, "usd", 0, true, false, ""⟩)
      ⟨41, 8, 4, "cus_1", "payer", 100, .empty⟩
      ⟨42, 8, 5, "acct_2", "seller", 90, .empty⟩ [] "STRIPE" rfl rfl rfl
      (by simp) (by simp)⟩

/-- Claim C6: on a fiat payment in `ON_HOLD` with transaction status
`ACTION_REQUIRED` and at least one prior Transaction, `ConfirmPayment`
re-queries the fiat adapter for the continuation token's state; when the
adapter reports the intent succeeded, the most recent Transaction is
verified (its derived status becomes `VERIFIED`) and the payment row
becomes `DEPOSITED` with transaction status `VERIFIED`; when the adapter
reports a non-succeeded state, an error is returned and the store is
exactly as before the call. -/
theorem confirmPayment_spec (db : DB) (p : Payment) (pid : String)
    (now : Nat)
    (adapter : FiatPaymentConfirmParams → Except String FiatPaymentConfirmInfo)
    (t : Transaction) (svc : String)
    (hty : p.ptype = .FIAT)
    (hhold : p.status = .ON_HOLD)
    (hts : p.transactionStatus = some .ACTION_REQUIRED)
    (hlast : p.transactions.getLast? = some t)
    (hsvc : p.fiatServiceName = some svc)
    (hrow : t ∈ db.transactions)
    (hcan : t.canceledAt = none) :
    (∀ info, adapter ⟨svc, pid⟩ = .ok info → info.isConfirmed = true →
      (confirmPayment db p pid now adapter).1 = .ok () ∧
      (∃ r ∈ (confirmPayment db p pid now adapter).2.transactions,
        r.id = t.id ∧ r.verifiedAt = some now ∧
        txDerivedStatus r = some .VERIFIED) ∧
      (∀ q ∈ (confirmPayment db p pid now adapter).2.payments, q.id = p.id →
        q.status = .DEPOSITED ∧ q.transactionStatus = some .VERIFIED)) ∧
    (∀ info, adapter ⟨svc, pid⟩ = .ok info → info.isConfirmed = false →
      (confirmPayment db p pid now adapter).1 = .error (.notConfirmed pid) ∧
      (confirmPayment db p pid now adapter).2 = db) := by
  have hne : ¬p.ptype ≠ PaymentType.FIAT := by rw [hty]; simp
  have hguard : ¬¬(p.status = PaymentStatus.ON_HOLD ∧
      p.transactionStatus = some TransactionStatus.ACTION_REQUIRED) := by
    simp [hhold, hts]
  constructor
  · intro info hA hC
    have key : confirmPayment db p pid now adapter =
        (.ok (),
          paymentUpdate
            (txVerify db { t with meta := .confirmInfo (some info) none } now)
            { p with
              transactionStatus := some .VERIFIED
              status := .DEPOSITED }) := by
      rw [confirmPayment, if_neg hne, if_neg hguard, hlast]
      dsimp only
      rw [hsvc]
      dsimp only
      rw [hA]
      dsimp only
      simp only [hC, Bool.not_true, Bool.false_eq_true, if_false]
    rw [key]
    refine ⟨rfl, ?_, ?_⟩
    · refine ⟨verifyRow { t with meta := .confirmInfo (some info) none } now t,
        ?_, rfl, rfl, ?_⟩
      · rw [paymentUpdate_transactions, txVerify_transactions]
        simp [List.mem_map]
        exact ⟨t, hrow, by simp⟩
      · simp [txDerivedStatus, verifyRow, hcan]
    · intro q hq hqid
      rw [paymentUpdate] at hq
      dsimp only at hq
      obtain ⟨q0, _, rfl⟩ := List.mem_map.mp hq
      by_cases h0 : q0.id = p.id
      · rw [if_pos h0]
        exact ⟨rfl, rfl⟩
      · rw [if_neg h0] at hqid ⊢
        exact absurd hqid h0
  · intro info hA hC
    have key : confirmPayment db p pid now adapter =
        (.error (.notConfirmed pid), db) := by
      rw [confirmPayment, if_neg hne, if_neg hguard, hlast]
      dsimp only
      rw [hsvc]
      dsimp only
      rw [hA]
      dsimp only
      simp only [hC, Bool.not_false, if_true]
    rw [key]
    exact ⟨rfl, rfl⟩

/-- Witness for C6: the spec's Scenario B continuation — an on-hold
payment with one action-required transaction, confirmed by the
adapter. -/
theorem confirmPayment_spec_witness :
    ((⟨3, "t", "d", "order-5", 100, "USD", some "STRIPE", none, none,
        .empty, .ON_HOLD, some .ACTION_REQUIRED, some "sec", .FIAT,
        [⟨11, 3, 2, "cus_9", "payer", 100, .empty⟩],
        [⟨61, 3, 11, "pi_7", "DEPOSIT", 100, 0, 0, some .PENDING,
          .DEPOSIT, .empty, none, none⟩]⟩ : Payment).transactions.getLast? =
      some ⟨61, 3, 11, "pi_7", "DEPOSIT", 100, 0, 0, some .PENDING,
        .DEPOSIT, .empty, none, none⟩) ∧
    ((∀ info, (fun _ : FiatPaymentConfirmParams =>
          (.ok ⟨true⟩ : Except String FiatPaymentConfirmInfo)) ⟨"STRIPE", "pi_7"⟩ =
            .ok info → info.isConfirmed = true →
        (confirmPayment
          ⟨[⟨3, "t", "d", "order-5", 100, "USD", some "STRIPE", none, none,
            .empty, .ON_HOLD, some .ACTION_REQUIRED, some "sec", .FIAT,
            [⟨11, 3, 2, "cus_9", "payer", 100, .empty⟩],
            [⟨61, 3, 11, "pi_7", "DEPOSIT", 100, 0, 0, some .PENDING,
              .DEPOSIT, .empty, none, none⟩]⟩], [],
           [⟨61, 3, 11, "pi_7", "DEPOSIT", 100, 0, 0, some .PENDING,
             .DEPOSIT, .empty, none, none⟩]⟩
          ⟨3, "t", "d", "order-5", 100, "USD", some "STRIPE", none, none,
            .empty, .ON_HOLD, some .ACTION_REQUIRED, some "sec", .FIAT,
            [⟨11, 3, 2, "cus_9", "payer", 100, .empty⟩],
            [⟨61, 3, 11, "pi_7", "DEPOSIT", 100, 0, 0, some .PENDING,
              .DEPOSIT, .empty, none, none⟩]⟩
          "pi_7" 4 (fun _ => .ok ⟨true⟩)).1 = .ok () ∧
        (∃ r ∈ (confirmPayment
          ⟨[⟨3, "t", "d", "order-5", 100, "USD", some "STRIPE", none, none,
            .empty, .ON_HOLD, some .ACTION_REQUIRED, some "sec", .FIAT,
            [⟨11, 3, 2, "cus_9", "payer", 100, .empty⟩],
            [⟨61, 3, 11, "pi_7", "DEPOSIT", 100, 0, 0, some .PENDING,
              .DEPOSIT, .empty, none, none⟩]⟩], [],
           [⟨61, 3, 11, "pi_7", "DEPOSIT", 100, 0, 0, some .PENDING,
             .DEPOSIT, .empty, none, none⟩]⟩
          ⟨3, "t", "d", "order-5", 100, "USD", some "STRIPE", none, none,
            .empty, .ON_HOLD, some .ACTION_REQUIRED, some "sec", .FIAT,
            [⟨11, 3, 2, "cus_9", "payer", 100, .empty⟩],
            [⟨61, 3, 11, "pi_7", "DEPOSIT", 100, 0, 0, some .PENDING,
              .DEPOSIT, .empty, none, none⟩]⟩
          "pi_7" 4 (fun _ => .ok ⟨true⟩)).2.transactions,
          r.id = 61 ∧ r.verifiedAt = some 4 ∧
          txDerivedStatus r = some .VERIFIED) ∧
        (∀ q ∈ (confirmPayment
          ⟨[⟨3, "t", "d", "order-5", 100, "USD", some "STRIPE", none, none,
            .empty, .ON_HOLD, some .ACTION_REQUIRED, some "sec", .FIAT,
            [⟨11, 3, 2, "cus_9", "payer", 100, .empty⟩],
            [⟨61, 3, 11, "pi_7", "DEPOSIT", 100, 0, 0, some .PENDING,
              .DEPOSIT, .empty, none, none⟩]⟩], [],
           [⟨61, 3, 11, "pi_7", "DEPOSIT", 100, 0, 0, some .PENDING,
             .DEPOSIT, .empty, none, none⟩]⟩
          ⟨3, "t", "d", "order-5", 100, "USD", some "STRIPE", none, none,
            .empty, .ON_HOLD, some .ACTION_REQUIRED, some "sec", .FIAT,
            [⟨11, 3, 2, "cus_9", "payer", 100, .empty⟩],
            [⟨61, 3, 11, "pi_7", "DEPOSIT", 100, 0, 0, some .PENDING,
              .DEPOSIT, .empty, none, none⟩]⟩
          "pi_7" 4 (fun _ => .ok ⟨true⟩)).2.payments, q.id = 3 →
          q.status = .DEPOSITED ∧ q.transactionStatus = some .VERIFIED)) ∧
      (∀ info, (fun _ : FiatPaymentConfirmParams =>
          (.ok ⟨true⟩ : Except String FiatPaymentConfirmInfo)) ⟨"STRIPE", "pi_7"⟩ =
            .ok info → info.isConfirmed = false →
        (confirmPayment
          ⟨[⟨3, "t", "d", "order-5", 100, "USD", some "STRIPE", none, none,
            .empty, .ON_HOLD, some .ACTION_REQUIRED, some "sec", .FIAT,
            [⟨11, 3, 2, "cus_9", "payer", 100, .empty⟩],
            [⟨61, 3, 11, "pi_7", "DEPOSIT", 100, 0, 0, some .PENDING,
              .DEPOSIT, .empty, none, none⟩]⟩], [],
           [⟨61, 3, 11, "pi_7", "DEPOSIT", 100, 0, 0, some .PENDING,
             .DEPOSIT, .empty, none, none⟩]⟩
          ⟨3, "t", "d", "order-5", 100, "USD", some "STRIPE", none, none,
            .empty, .ON_HOLD, some .ACTION_REQUIRED, some "sec", .FIAT,
            [⟨11, 3, 2, "cus_9", "payer", 100, .empty⟩],
            [⟨61, 3, 11, "pi_7", "DEPOSIT", 100, 0, 0, some .PENDING,
              .DEPOSIT, .empty, none, none⟩]⟩
          "pi_7" 4 (fun _ => .ok ⟨true⟩)).1 = .error (.notConfirmed "pi_7") ∧
        (confirmPayment
          ⟨[⟨3, "t", "d", "order-5", 100, "USD", some "STRIPE", none, none,
            .empty, .ON_HOLD, some .ACTION_REQUIRED, some "sec", .FIAT,
            [⟨11, 3, 2, "cus_9", "payer", 100, .empty⟩],
            [⟨61, 3, 11, "pi_7", "DEPOSIT", 100, 0, 0, some .PENDING,
              .DEPOSIT, .empty, none, none⟩]⟩], [],
           [⟨61, 3, 11, "pi_7", "DEPOSIT", 100, 0, 0, some .PENDING,
             .DEPOSIT, .empty, none, none⟩]⟩
          ⟨3, "t", "d", "order-5", 100, "USD", some "STRIPE", none, none,
            .empty, .ON_HOLD, some .ACTION_REQUIRED, some "sec", .FIAT,
            [⟨11, 3, 2, "cus_9", "payer", 100, .empty⟩],
            [⟨61, 3, 11, "pi_7", "DEPOSIT", 100, 0, 0, some .PENDING,
              .DEPOSIT, .empty, none, none⟩]⟩
          "pi_7" 4 (fun _ => .ok ⟨true⟩)).2 =
          ⟨[⟨3, "t", "d", "order-5", 100, "USD", some "STRIPE", none, none,
            .empty, .ON_HOLD, some .ACTION_REQUIRED, some "sec", .FIAT,
            [⟨11, 3, 2, "cus_9", "payer", 100, .empty⟩],
            [⟨61, 3, 11, "pi_7", "DEPOSIT", 100, 0, 0, some .PENDING,
              .DEPOSIT, .empty, none, none⟩]⟩], [],
           [⟨61, 3, 11, "pi_7", "DEPOSIT", 100, 0, 0, some .PENDING,
             .DEPOSIT, .empty, none, none⟩]⟩)) :=
  ⟨rfl,
    confirmPayment_spec
      ⟨[⟨3, "t", "d", "order-5", 100, "USD", some "STRIPE", none, none,
        .empty, .ON_HOLD, some .ACTION_REQUIRED, some "sec", .FIAT,
        [⟨11, 3, 2, "cus_9", "payer", 100, .empty⟩],
        [⟨61, 3, 11, "pi_7", "DEPOSIT", 100, 0, 0, some .PENDING,
          .DEPOSIT, .empty, none, none⟩]⟩], [],
       [⟨61, 3, 11, "pi_7", "DEPOSIT", 100, 0, 0, some .PENDING,
         .DEPOSIT, .empty, none, none⟩]⟩
      ⟨3, "t", "d", "order-5", 100, "USD", some "STRIPE", none, none,
        .empty, .ON_HOLD, some .ACTION_REQUIRED, some "sec", .FIAT,
        [⟨11, 3, 2, "cus_9", "payer", 100, .empty⟩],
        [⟨61, 3, 11, "pi_7", "DEPOSIT", 100, 0, 0, some .PENDING,
          .DEPOSIT, .empty, none, none⟩]⟩
      "pi_7" 4 (fun _ => .ok ⟨true⟩)
      ⟨61, 3, 11, "pi_7", "DEPOSIT", 100, 0, 0, some .PENDING,
        .DEPOSIT, .empty, none, none⟩ "STRIPE"
      rfl rfl rfl rfl rfl (by simp) rfl⟩

/-- The `DO UPDATE SET` list never touches the conflict key. -/
theorem upsertFields_uniqueRef (q : Payment) (ps : PaymentParams) :
    (upsertFields q ps).uniqueRef = q.uniqueRef := rfl

/-- When no row carries the ref, `New` takes the plain-`INSERT` path. -/
theorem paymentNew_insert_case (db : DB) (ps : PaymentParams) (f : Nat)
    (h : db.payments.filter (fun q => q.uniqueRef = ps.ref) = []) :
    paymentNew db ps f =
      (insertRow ps f,
        { db with payments := db.payments ++ [insertRow ps f] }) := by
  rw [paymentNew]
  have hfind : db.payments.find? (fun q => q.uniqueRef = ps.ref) = none := by
    rw [List.find?_eq_none]
    intro x hx
    simpa using List.filter_eq_nil_iff.mp h x hx
  rw [hfind]

/-- The first row a linear scan finds for the ref is the single row the
filter keeps. -/
theorem find?_of_filter_singleton (l : List Payment) (r : String)
    (q0 : Payment)
    (h : l.filter (fun q => q.uniqueRef = r) = [q0]) :
    l.find? (fun q => q.uniqueRef = r) = some q0 := by
  induction l with
  | nil => simp at h
  | cons a t ih =>
    by_cases ha : a.uniqueRef = r
    · rw [List.filter_cons, if_pos (by simpa using ha)] at h
      obtain ⟨rfl, -⟩ := List.cons_eq_cons.mp h
      exact List.find?_cons_of_pos t (by simpa using ha)
    · rw [List.filter_cons, if_neg (by simpa using ha)] at h
      rw [List.find?_cons_of_neg t (by simpa using ha)]
      exact ih h

/-- When exactly the row `q0` carries the ref, `New` takes the
`ON CONFLICT DO UPDATE` path, updating and returning that row. -/
theorem paymentNew_update_case (db : DB) (ps : PaymentParams) (f : Nat)
    (q0 : Payment)
    (h : db.payments.filter (fun q => q.uniqueRef = ps.ref) = [q0]) :
    paymentNew db ps f =
      (upsertFields q0 ps,
        { db with payments := db.payments.map fun q =>
            if q.uniqueRef = ps.ref then upsertFields q ps else q }) := by
  rw [paymentNew, find?_of_filter_singleton db.payments ps.ref q0 h]

/-- Filtering for the ref after the conflict-update path yields exactly
the updated versions of the rows that carried the ref before (the update
preserves the key, so no row enters or leaves the filter). -/
theorem filter_map_upsert (l : List Payment) (ps : PaymentParams) :
    (l.map fun q =>
        if q.uniqueRef = ps.ref then upsertFields q ps else q).filter
      (fun q => q.uniqueRef = ps.ref) =
      (l.filter (fun q => q.uniqueRef = ps.ref)).map
        (fun q => upsertFields q ps) := by
  induction l with
  | nil => rfl
  | cons a t ih =>
    by_cases ha : a.uniqueRef = ps.ref
    · simp only [List.map_cons, List.filter_cons, if_pos ha,
        upsertFields_uniqueRef]
      rw [if_pos (by simpa using ha), if_pos (by simpa using ha), ih]
      rfl
    · simp only [List.map_cons, List.filter_cons, if_neg ha]
      rw [if_neg (by simpa using ha), if_neg (by simpa using ha), ih]

/-- Claim C2: two creation calls with the same `unique_ref` (and possibly
different other fields) leave exactly one Payment row for that ref — the
second call updates instead of inserting (`ON CONFLICT (unique_ref) DO
UPDATE`), the surviving row carries the second call's fields, the second
call returns that row, and the table's row count is unchanged by the
second call. -/
theorem paymentNew_idempotent_upsert (db : DB) (ps1 ps2 : PaymentParams)
    (f1 f2 : Nat)
    (href : ps2.ref = ps1.ref)
    (hunique :
      (db.payments.filter (fun q => q.uniqueRef = ps1.ref)).length ≤ 1) :
    (paymentNew (paymentNew db ps1 f1).2 ps2 f2).2.payments.filter
        (fun q => q.uniqueRef = ps1.ref) =
      [(paymentNew (paymentNew db ps1 f1).2 ps2 f2).1] ∧
    (paymentNew (paymentNew db ps1 f1).2 ps2 f2).1.uniqueRef = ps1.ref ∧
    (paymentNew (paymentNew db ps1 f1).2 ps2 f2).1.tag = ps2.tag ∧
    (paymentNew (paymentNew db ps1 f1).2 ps2 f2).1.description =
      ps2.description ∧
    (paymentNew (paymentNew db ps1 f1).2 ps2 f2).1.totalAmount =
      ps2.totalAmount ∧
    (paymentNew (paymentNew db ps1 f1).2 ps2 f2).1.currency = ps2.currency ∧
    (paymentNew (paymentNew db ps1 f1).2 ps2 f2).1.ptype = ps2.ptype ∧
    (paymentNew (paymentNew db ps1 f1).2 ps2 f2).1.meta = .user ps2.meta ∧
    (paymentNew (paymentNew db ps1 f1).2 ps2 f2).2.payments.length =
      (paymentNew db ps1 f1).2.payments.length := by
  have hx1 : ∃ x1, (paymentNew db ps1 f1).2.payments.filter
      (fun q => q.uniqueRef = ps1.ref) = [x1] ∧ x1.uniqueRef = ps1.ref := by
    cases hfil : db.payments.filter (fun q => q.uniqueRef = ps1.ref) with
    | nil =>
      refine ⟨insertRow ps1 f1, ?_, rfl⟩
      rw [paymentNew_insert_case db ps1 f1 hfil]
      dsimp only
      rw [List.filter_append, hfil]
      simp [insertRow]
    | cons q0 tl =>
      cases tl with
      | nil =>
        refine ⟨upsertFields q0 ps1, ?_, ?_⟩
        · rw [paymentNew_update_case db ps1 f1 q0 hfil]
          dsimp only
          rw [filter_map_upsert, hfil]
          rfl
        · rw [upsertFields_uniqueRef]
          have hq0 : q0 ∈ db.payments.filter
              (fun q => q.uniqueRef = ps1.ref) := by
            rw [hfil]; exact List.mem_singleton.mpr rfl
          simpa using (List.mem_filter.mp hq0).2
      | cons b tl2 => rw [hfil] at hunique; simp at hunique
  obtain ⟨x1, hfil1, hx1ref⟩ := hx1
  have hfil1two : (paymentNew db ps1 f1).2.payments.filter
      (fun q => q.uniqueRef = ps2.ref) = [x1] := by rw [href]; exact hfil1
  rw [paymentNew_update_case _ ps2 f2 x1 hfil1two]
  dsimp only
  refine ⟨?_, ?_, rfl, rfl, rfl, rfl, rfl, rfl, List.length_map _ _⟩
  · rw [← href, filter_map_upsert, hfil1two]
    rfl
  · rw [upsertFields_uniqueRef]
    exact hx1ref

/-- Witness for C2: two creations with ref `"order-1"` and different
fields against an empty table. -/
theorem paymentNew_idempotent_upsert_witness :
    ((⟨"t2", "d2", "order-1", "JPY", 200, .CRYPTO, "m2"⟩ :
        PaymentParams).ref =
      (⟨"t1", "d1", "order-1", "USD", 100, .FIAT, "m1"⟩ :
        PaymentParams).ref ∧
      ((⟨[], [], []⟩ : DB).payments.filter
        (fun q => q.uniqueRef =
          (⟨"t1", "d1", "order-1", "USD", 100, .FIAT, "m1"⟩ :
            PaymentParams).ref)).length ≤ 1) ∧
    ((paymentNew (paymentNew ⟨[], [], []⟩
        ⟨"t1", "d1", "order-1", "USD", 100, .FIAT, "m1"⟩ 1).2
        ⟨"t2", "d2", "order-1", "JPY", 200, .CRYPTO, "m2"⟩ 2).2.payments.filter
        (fun q => q.uniqueRef =
          (⟨"t1", "d1", "order-1", "USD", 100, .FIAT, "m1"⟩ :
            PaymentParams).ref) =
      [(paymentNew (paymentNew ⟨[], [], []⟩
        ⟨"t1", "d1", "order-1", "USD", 100, .FIAT, "m1"⟩ 1).2
        ⟨"t2", "d2", "order-1", "JPY", 200, .CRYPTO, "m2"⟩ 2).1] ∧
      (paymentNew (paymentNew ⟨[], [], []⟩
        ⟨"t1", "d1", "order-1", "USD", 100, .FIAT, "m1"⟩ 1).2
        ⟨"t2", "d2", "order-1", "JPY", 200, .CRYPTO, "m2"⟩ 2).1.uniqueRef =
        (⟨"t1", "d1", "order-1", "USD", 100, .FIAT, "m1"⟩ :
          PaymentParams).ref ∧
      (paymentNew (paymentNew ⟨[], [], []⟩
        ⟨"t1", "d1", "order-1", "USD", 100, .FIAT, "m1"⟩ 1).2
        ⟨"t2", "d2", "order-1", "JPY", 200, .CRYPTO, "m2"⟩ 2).1.tag = "t2" ∧
      (paymentNew (paymentNew ⟨[], [], []⟩
        ⟨"t1", "d1", "order-1", "USD", 100, .FIAT, "m1"⟩ 1).2
        ⟨"t2", "d2", "order-1", "JPY", 200, .CRYPTO, "m2"⟩ 2).1.description =
        "d2" ∧
      (paymentNew (paymentNew ⟨[], [], []⟩
        ⟨"t1", "d1", "order-1", "USD", 100, .FIAT, "m1"⟩ 1).2
        ⟨"t2", "d2", "order-1", "JPY", 200, .CRYPTO, "m2"⟩ 2).1.totalAmount =
        200 ∧
      (paymentNew (paymentNew ⟨[], [], []⟩
        ⟨"t1", "d1", "order-1", "USD", 100, .FIAT, "m1"⟩ 1).2
        ⟨"t2", "d2", "order-1", "JPY", 200, .CRYPTO, "m2"⟩ 2).1.currency =
        "JPY" ∧
      (paymentNew (paymentNew ⟨[], [], []⟩
        ⟨"t1", "d1", "order-1", "USD", 100, .FIAT, "m1"⟩ 1).2
        ⟨"t2", "d2", "order-1", "JPY", 200, .CRYPTO, "m2"⟩ 2).1.ptype =
        PaymentType.CRYPTO ∧
      (paymentNew (paymentNew ⟨[], [], []⟩
        ⟨"t1", "d1", "order-1", "USD", 100, .FIAT, "m1"⟩ 1).2
        ⟨"t2", "d2", "order-1", "JPY", 200, .CRYPTO, "m2"⟩ 2).1.meta =
        .user "m2" ∧
      (paymentNew (paymentNew ⟨[], [], []⟩
        ⟨"t1", "d1", "order-1", "USD", 100, .FIAT, "m1"⟩ 1).2
        ⟨"t2", "d2", "order-1", "JPY", 200, .CRYPTO, "m2"⟩ 2).2.payments.length =
        (paymentNew (⟨[], [], []⟩ : DB)
          ⟨"t1", "d1", "order-1", "USD", 100, .FIAT, "m1"⟩ 1).2.payments.length) :=
  ⟨⟨rfl, by decide⟩,
    paymentNew_idempotent_upsert ⟨[], [], []⟩
      ⟨"t1", "d1", "order-1", "USD", 100, .FIAT, "m1"⟩
      ⟨"t2", "d2", "order-1", "JPY", 200, .CRYPTO, "m2"⟩ 1 2 rfl (by decide)⟩

end Gopay
